import Mathlib

/-!
Shallow embedding of the building digital-twin engine in
`System_Engineering_Integration/main.py`: synthetic sensor generation
(`SensorData.generate_realistic_data`), the HVAC, lighting and solar PV
models, the energy-balance aggregator
(`BuildingEnergyManagement.calculate_energy_balance`) and the
sustainability assessor (`SustainabilityAssessment`).

Modelling conventions:
- Python floats are embedded as `ℚ`; `np.sin` and `np.pi` are float
  approximations of transcendental functions, so they are abstracted as an
  arbitrary rational-valued oracle (`NumericOracle`), which every theorem
  quantifies over.  No claim depends on actual values of `sin`.
- Every call to `np.random.*` is embedded as a lookup in an explicit
  stream of draws (`NoiseSource`), one stream per list comprehension,
  indexed by the loop index.  Theorems quantify over the streams.
- Timestamps (`datetime.now() - timedelta(hours=i)`) are embedded as
  integers counting whole hours from an arbitrary origin `now`.
- `pandas` DataFrames are embedded as lists of per-row records; the
  element-wise `numpy` column arithmetic of the source is embedded
  row-wise, which is the same function since all columns are aligned
  per-index maps over the same series.
-/

namespace DigitalTwin

/-- One row of the sensor DataFrame produced by
`SensorData.generate_realistic_data`: timestamp, temperature, humidity,
light_level, energy_consumption, occupancy.  Occupancy is a natural
number (`max(0, int(...))` or a Poisson draw in the source). -/
structure Observation where
  timestamp : ℤ
  temperature : ℚ
  humidity : ℚ
  light_level : ℚ
  energy_consumption : ℚ
  occupancy : ℕ
deriving DecidableEq, Repr

/-- Abstraction of the floating-point `np.sin` and `np.pi` used by the
source: an arbitrary rational approximation, quantified over in every
theorem (no claim depends on trigonometric values). -/
structure NumericOracle where
  sin : ℚ → ℚ
  pi : ℚ

/-- Explicit streams of random draws, one per `np.random.*` call site in
`generate_realistic_data`, indexed by the comprehension loop index. -/
structure NoiseSource where
  temp_noise : ℕ → ℚ
  humidity_noise : ℕ → ℚ
  light_noise : ℕ → ℚ
  night_light : ℕ → ℚ
  energy_noise : ℕ → ℚ
  occupancy_poisson : ℕ → ℕ

/-- Python `int()` truncation toward zero on a rational. -/
def truncToInt (q : ℚ) : ℤ :=
  if 0 ≤ q then ⌊q⌋ else ⌈q⌉

/-- Row `j` (for `j` in `range(hours)`) of the sensor DataFrame built by
`SensorData.generate_realistic_data`: its timestamp is `now - hours + j`
(the source builds timestamps from `range(hours, 0, -1)` subtracted from
`now`, so the `j`-th row is `hours - j` hours before `now`).  The
nighttime branch of `light_data` is the raw draw `np.random.normal(10,
5)` — the source applies `max(0, ...)` only in the daytime branch. -/
def SensorData.generate_row (O : NumericOracle) (R : NoiseSource)
    (now : ℤ) (hours : ℤ) (j : ℕ) : Observation :=
  let temperature : ℚ := 25 + 5 * O.sin (2 * O.pi * (j : ℚ) / 24) + R.temp_noise j
  { timestamp := now - hours + (j : ℤ)
    temperature := temperature
    humidity := 60 - (temperature - 25) + R.humidity_noise j
    light_level :=
      if j % 24 < 12 then
        max 0 (800 * O.sin (O.pi * (j : ℚ) / 12) + R.light_noise j)
      else
        R.night_light j
    energy_consumption := 2 + 3 * O.sin (2 * O.pi * (j : ℚ) / 24) + R.energy_noise j
    occupancy :=
      if 8 ≤ j % 24 ∧ j % 24 ≤ 18 then
        (max 0 (truncToInt (20 * O.sin (O.pi * (j % 24 : ℕ) / 12)))).toNat
      else
        R.occupancy_poisson j }

/-- Embedding of `SensorData.generate_realistic_data(hours)`: one row per
index in `range(hours)` (empty when `hours ≤ 0`, since every Python
`range` involved is then empty). -/
def SensorData.generate_realistic_data (O : NumericOracle) (R : NoiseSource)
    (now : ℤ) (hours : ℤ) : List Observation :=
  (List.range hours.toNat).map (SensorData.generate_row O R now hours)

/-- Configuration of `HVACSystem.__init__`: target set-point, efficiency,
rated power. -/
structure HVACSystem where
  target_temp : ℚ
  efficiency : ℚ
  power_rating : ℚ
deriving DecidableEq, Repr

/-- The `HVACSystem()` default configuration: 24 °C, 0.85, 50 kW. -/
def defaultHVACSystem : HVACSystem :=
  { target_temp := 24, efficiency := 0.85, power_rating := 50 }

/-- Embedding of `HVACSystem.calculate_load(current_temp, occupancy,
external_temp=30)`.  The Python default argument `external_temp=30` is
passed explicitly at every call site.  Note the source returns
`min(total_load, power_rating)` with no lower clamp at 0. -/
def HVACSystem.calculate_load (h : HVACSystem)
    (current_temp occupancy external_temp : ℚ) : ℚ :=
  let temp_diff := |current_temp - h.target_temp|
  let occupancy_load := occupancy * 0.1
  let external_load := (external_temp - h.target_temp) * 0.05
  let total_load := (temp_diff * 2 + occupancy_load + external_load) / h.efficiency
  min total_load h.power_rating

/-- One row of the DataFrame returned by `HVACSystem.optimize_settings`. -/
structure OptimizeRecommendation where
  timestamp : ℤ
  recommended_temp : ℚ
  predicted_load : ℚ
deriving DecidableEq, Repr

/-- Embedding of `HVACSystem.optimize_settings(forecast_data)`: per row,
recommend `target_temp + 2` when occupancy is 0, else `target_temp`; the
`predicted_load` is computed by `self.calculate_load(row['temperature'],
row['occupancy'])` with the nominal settings (and default
`external_temp=30`), not with the recommended set-point. -/
def HVACSystem.optimize_settings (h : HVACSystem)
    (forecast_data : List Observation) : List OptimizeRecommendation :=
  forecast_data.map (fun row =>
    { timestamp := row.timestamp
      recommended_temp :=
        if row.occupancy = 0 then h.target_temp + 2 else h.target_temp
      predicted_load := h.calculate_load row.temperature (row.occupancy : ℚ) 30 })

/-- Configuration of `LightingSystem.__init__`: fixture count, power per
fixture (kW), daylight threshold (lux). -/
structure LightingSystem where
  fixtures : ℚ
  power_per_fixture : ℚ
  daylight_threshold : ℚ
deriving DecidableEq, Repr

/-- The `LightingSystem()` default configuration: 100 fixtures, 0.04 kW,
300 lux. -/
def defaultLightingSystem : LightingSystem :=
  { fixtures := 100, power_per_fixture := 0.04, daylight_threshold := 300 }

/-- Embedding of `LightingSystem.calculate_lighting_need(ambient_light,
occupancy)`. -/
def LightingSystem.calculate_lighting_need (L : LightingSystem)
    (ambient_light : ℚ) (occupancy : ℕ) : ℚ :=
  if occupancy = 0 then 0
  else if ambient_light < L.daylight_threshold then
    let dimming_factor := 1 - ambient_light / L.daylight_threshold
    L.fixtures * L.power_per_fixture * dimming_factor
  else 0

/-- Embedding of `LightingSystem.energy_consumption(sensor_data)`: the
per-row map of `calculate_lighting_need` over the series. -/
def LightingSystem.energy_consumption (L : LightingSystem)
    (sensor_data : List Observation) : List ℚ :=
  sensor_data.map (fun row => L.calculate_lighting_need row.light_level row.occupancy)

/-- Configuration of `SolarPVSystem.__init__`: peak capacity (kW), panel
efficiency, area (m²). -/
structure SolarPVSystem where
  capacity : ℚ
  efficiency : ℚ
  area : ℚ
deriving DecidableEq, Repr

/-- The `SolarPVSystem()` default configuration: 100 kW, 0.18, 500 m². -/
def defaultSolarPVSystem : SolarPVSystem :=
  { capacity := 100, efficiency := 0.18, area := 500 }

/-- Body of the per-sample loop of `SolarPVSystem.calculate_generation`:
irradiance = `min(light_level * 0.1, 1000)`, power = `(irradiance / 1000)
* capacity * weather_factor`, floored at 0. -/
def SolarPVSystem.generation_sample (s : SolarPVSystem)
    (weather_factor light_level : ℚ) : ℚ :=
  let irradiance := min (light_level * 0.1) 1000
  max 0 (irradiance / 1000 * s.capacity * weather_factor)

/-- Embedding of `SolarPVSystem.calculate_generation(light_data,
weather_factor=0.9)`. -/
def SolarPVSystem.calculate_generation (s : SolarPVSystem)
    (light_data : List ℚ) (weather_factor : ℚ) : List ℚ :=
  light_data.map (s.generation_sample weather_factor)

/-- Configuration of `BuildingEnergyManagement.__init__`: one instance of
each subsystem model plus the (unused) grid-connection flag. -/
structure BuildingEnergyManagement where
  hvac : HVACSystem
  lighting : LightingSystem
  solar : SolarPVSystem
  grid_connection : Bool
deriving DecidableEq, Repr

/-- The `BuildingEnergyManagement()` default configuration. -/
def defaultBEMS : BuildingEnergyManagement :=
  { hvac := defaultHVACSystem
    lighting := defaultLightingSystem
    solar := defaultSolarPVSystem
    grid_connection := true }

/-- One row of the DataFrame returned by
`BuildingEnergyManagement.calculate_energy_balance`. -/
structure BalanceRecord where
  timestamp : ℤ
  hvac_consumption : ℚ
  lighting_consumption : ℚ
  base_load : ℚ
  solar_generation : ℚ
  total_consumption : ℚ
  net_energy : ℚ
  grid_import : ℚ
  grid_export : ℚ
deriving DecidableEq, Repr

/-- Row `j` of the energy balance: HVAC load at the row's temperature and
occupancy with default `external_temp=30`, lighting need, base load
`3 + np.random.normal(0, 0.2)` (draw `base_noise j`), solar generation at
the row's light level with default `weather_factor=0.9`, and the derived
columns `total_consumption = hvac + lighting + base`, `net_energy = total
- solar`, `grid_import = np.maximum(net_energy, 0)`, `grid_export =
np.maximum(-net_energy, 0)`. -/
def BuildingEnergyManagement.balance_row (b : BuildingEnergyManagement)
    (base_noise : ℕ → ℚ) (j : ℕ) (row : Observation) : BalanceRecord :=
  let hvac_consumption := b.hvac.calculate_load row.temperature (row.occupancy : ℚ) 30
  let lighting_consumption := b.lighting.calculate_lighting_need row.light_level row.occupancy
  let base_load := 3 + base_noise j
  let solar_generation := b.solar.generation_sample 0.9 row.light_level
  let total_consumption := hvac_consumption + lighting_consumption + base_load
  let net_energy := total_consumption - solar_generation
  { timestamp := row.timestamp
    hvac_consumption := hvac_consumption
    lighting_consumption := lighting_consumption
    base_load := base_load
    solar_generation := solar_generation
    total_consumption := total_consumption
    net_energy := net_energy
    grid_import := max net_energy 0
    grid_export := max (-net_energy) 0 }

/-- Recursion over the series carrying the row index (the source builds
each column as a comprehension over the same index and the element-wise
`numpy` arithmetic pairs them per-index). -/
def BuildingEnergyManagement.balance_from (b : BuildingEnergyManagement)
    (base_noise : ℕ → ℚ) : ℕ → List Observation → List BalanceRecord
  | _, [] => []
  | j, row :: rest =>
      b.balance_row base_noise j row :: b.balance_from base_noise (j + 1) rest

/-- Embedding of
`BuildingEnergyManagement.calculate_energy_balance(sensor_data)`. -/
def BuildingEnergyManagement.calculate_energy_balance
    (b : BuildingEnergyManagement) (base_noise : ℕ → ℚ)
    (sensor_data : List Observation) : List BalanceRecord :=
  b.balance_from base_noise 0 sensor_data

/-- Configuration of `SustainabilityAssessment.__init__`: ECBC EPI limit
(kWh/m²/year), building area (m²), grid emission factor (kg CO2/kWh). -/
structure SustainabilityAssessment where
  ecbc_epi_limit : ℚ
  building_area : ℚ
  emission_factor : ℚ
deriving DecidableEq, Repr

/-- The `SustainabilityAssessment()` default configuration: 200, 5000,
0.82. -/
def defaultSustainability : SustainabilityAssessment :=
  { ecbc_epi_limit := 200, building_area := 5000, emission_factor := 0.82 }

/-- Embedding of `SustainabilityAssessment.calculate_epi`. -/
def SustainabilityAssessment.calculate_epi (s : SustainabilityAssessment)
    (annual_consumption : ℚ) : ℚ :=
  annual_consumption / s.building_area

/-- The dict returned by `SustainabilityAssessment.assess_ecbc_compliance`. -/
structure EcbcAssessment where
  annual_consumption_kwh : ℚ
  epi_kwh_m2_year : ℚ
  ecbc_limit : ℚ
  compliance : Bool
  savings_potential : ℚ
deriving DecidableEq, Repr

/-- Embedding of `SustainabilityAssessment.assess_ecbc_compliance
(energy_data)`: sums `total_consumption`, multiplies by the constant 52
(the source comment reads "Extrapolate weekly data to annual"), computes
the EPI and compares to the limit. -/
def SustainabilityAssessment.assess_ecbc_compliance
    (s : SustainabilityAssessment) (energy_data : List BalanceRecord) :
    EcbcAssessment :=
  let weekly_consumption := (energy_data.map BalanceRecord.total_consumption).sum
  let annual_consumption := weekly_consumption * 52
  let epi := s.calculate_epi annual_consumption
  { annual_consumption_kwh := annual_consumption
    epi_kwh_m2_year := epi
    ecbc_limit := s.ecbc_epi_limit
    compliance := decide (epi ≤ s.ecbc_epi_limit)
    savings_potential := max 0 (epi - s.ecbc_epi_limit) * s.building_area }

/-- The dict returned by
`SustainabilityAssessment.calculate_carbon_footprint`. -/
structure CarbonFootprint where
  gross_emissions_kg_co2 : ℚ
  carbon_offset_kg_co2 : ℚ
  net_emissions_kg_co2 : ℚ
  annual_net_emissions_tonnes : ℚ
deriving DecidableEq, Repr

/-- Embedding of `SustainabilityAssessment.calculate_carbon_footprint
(energy_data)`.  The source's local variable for gross emissions is named
`net_emissions`; it is `Σ grid_import × emission_factor`. -/
def SustainabilityAssessment.calculate_carbon_footprint
    (s : SustainabilityAssessment) (energy_data : List BalanceRecord) :
    CarbonFootprint :=
  let net_emissions := (energy_data.map BalanceRecord.grid_import).sum * s.emission_factor
  let carbon_offset := (energy_data.map BalanceRecord.grid_export).sum * s.emission_factor
  { gross_emissions_kg_co2 := net_emissions
    carbon_offset_kg_co2 := carbon_offset
    net_emissions_kg_co2 := net_emissions - carbon_offset
    annual_net_emissions_tonnes := (net_emissions - carbon_offset) * 52 / 1000 }

/-- Formalisation of the claims' "window of w weeks" for a balance-record
set: the records are hourly (one per Observation) and a week is 168
hours, so a set of n records covers n / 168 weeks. -/
def weeks_in_window (energy_data : List BalanceRecord) : ℚ :=
  (energy_data.length : ℚ) / 168

/-- Two observations that agree on every sensor field except humidity. -/
def sameExceptHumidity (x y : Observation) : Prop :=
  x.timestamp = y.timestamp ∧ x.temperature = y.temperature ∧
  x.light_level = y.light_level ∧
  x.energy_consumption = y.energy_consumption ∧ x.occupancy = y.occupancy

/-! Concrete fixtures used to instantiate theorems with hypotheses and to
exhibit counterexamples. -/

/-- Oracle whose `sin` is constantly 0 (a legitimate rational
approximation choice; no claim depends on trigonometric values). -/
def oracle0 : NumericOracle := { sin := fun _ => 0, pi := 0 }

/-- Noise streams with a nighttime light draw of −20 lux (a possible
`np.random.normal(10, 5)` draw) and all other draws constant. -/
def noiseW : NoiseSource :=
  { temp_noise := fun _ => 0
    humidity_noise := fun _ => 0
    light_noise := fun _ => 0
    night_light := fun _ => -20
    energy_noise := fun _ => 0
    occupancy_poisson := fun _ => 2 }

/-- A sample observation: 25 °C, 50 % humidity, 100 lux, 5 occupants. -/
def obsA : Observation :=
  { timestamp := 0, temperature := 25, humidity := 50, light_level := 100
    energy_consumption := 2, occupancy := 5 }

/-- `obsA` with only its humidity changed. -/
def obsAHum : Observation := { obsA with humidity := 90 }

/-- An unoccupied observation at exactly the HVAC set-point. -/
def obsB : Observation :=
  { timestamp := 0, temperature := 24, humidity := 50, light_level := 0
    energy_consumption := 0, occupancy := 0 }

/-- A balance record whose only nonzero column is `total_consumption = 1`. -/
def recOne : BalanceRecord :=
  { timestamp := 0, hvac_consumption := 0, lighting_consumption := 0
    base_load := 0, solar_generation := 0, total_consumption := 1
    net_energy := 0, grid_import := 0, grid_export := 0 }

/-- A balance record with `total_consumption = 2500/21` (168 of these sum
to 20000 kWh, the weekly total of the spec's Scenario C). -/
def recC : BalanceRecord :=
  { timestamp := 0, hvac_consumption := 0, lighting_consumption := 0
    base_load := 0, solar_generation := 0, total_consumption := 2500/21
    net_energy := 0, grid_import := 0, grid_export := 0 }

/-- A balance record with `grid_import = 500` and `grid_export = 100`
(the spec's Scenario D totals). -/
def recD : BalanceRecord :=
  { timestamp := 0, hvac_consumption := 0, lighting_consumption := 0
    base_load := 0, solar_generation := 0, total_consumption := 0
    net_energy := 0, grid_import := 500, grid_export := 100 }

/-- The all-zero balance record. -/
def recZero : BalanceRecord :=
  { timestamp := 0, hvac_consumption := 0, lighting_consumption := 0
    base_load := 0, solar_generation := 0, total_consumption := 0
    net_energy := 0, grid_import := 0, grid_export := 0 }

/-! Helper lemmas shared between claims. -/

/-- For any rational, `max a 0` and `max (-a) 0` cannot both be nonzero. -/
theorem max_pos_neg_not_both (a : ℚ) : max a 0 = 0 ∨ max (-a) 0 = 0 := by
  rcases le_total a 0 with h | h
  · exact Or.inl (max_eq_right h)
  · exact Or.inr (max_eq_right (neg_nonpos.mpr h))

/-- The fields of one balance row satisfy the defining equations of the
source's derived columns. -/
theorem balance_row_fields (b : BuildingEnergyManagement) (bn : ℕ → ℚ)
    (j : ℕ) (row : Observation) :
    (b.balance_row bn j row).total_consumption
        = (b.balance_row bn j row).hvac_consumption
          + (b.balance_row bn j row).lighting_consumption
          + (b.balance_row bn j row).base_load ∧
    (b.balance_row bn j row).net_energy
        = (b.balance_row bn j row).total_consumption
          - (b.balance_row bn j row).solar_generation ∧
    (b.balance_row bn j row).grid_import
        = max (b.balance_row bn j row).net_energy 0 ∧
    (b.balance_row bn j row).grid_export
        = max (-(b.balance_row bn j row).net_energy) 0 := by
  refine ⟨rfl, rfl, rfl, rfl⟩

/-- Every record of the energy balance output is a `balance_row` of some
observation of the input series. -/
theorem balance_from_mem (b : BuildingEnergyManagement) (bn : ℕ → ℚ) :
    ∀ (j : ℕ) (xs : List Observation) (r : BalanceRecord),
      r ∈ b.balance_from bn j xs →
      ∃ k row, row ∈ xs ∧ r = b.balance_row bn k row
  | _, [], _, h => by cases h
  | j, row :: rest, r, h => by
    rcases List.mem_cons.mp h with h | h
    · exact ⟨j, row, List.mem_cons_self row rest, h⟩
    · rcases balance_from_mem b bn (j + 1) rest r h with ⟨k, row', hmem, heq⟩
      exact ⟨k, row', List.mem_cons_of_mem row hmem, heq⟩

/-- C1: every row of the Energy Balance produced by
`calculate_energy_balance` satisfies `total_consumption = hvac + lighting
+ base`, `net_energy = total_consumption - solar`, `grid_import =
max(net_energy, 0)`, `grid_export = max(-net_energy, 0)`, and
`grid_import` and `grid_export` are never both nonzero. -/
theorem energy_balance_invariants (b : BuildingEnergyManagement)
    (base_noise : ℕ → ℚ) (sensor_data : List Observation) (r : BalanceRecord)
    (hr : r ∈ b.calculate_energy_balance base_noise sensor_data) :
    r.total_consumption = r.hvac_consumption + r.lighting_consumption + r.base_load ∧
    r.net_energy = r.total_consumption - r.solar_generation ∧
    r.grid_import = max r.net_energy 0 ∧
    r.grid_export = max (-r.net_energy) 0 ∧
    ¬(r.grid_import ≠ 0 ∧ r.grid_export ≠ 0) := by
  rcases balance_from_mem b base_noise 0 sensor_data r hr with ⟨k, row, -, rfl⟩
  obtain ⟨h1, h2, h3, h4⟩ := balance_row_fields b base_noise k row
  refine ⟨h1, h2, h3, h4, ?_⟩
  rintro ⟨hi, he⟩
  rcases max_pos_neg_not_both ((b.balance_row base_noise k row).net_energy) with h | h
  · exact hi (h3.trans h)
  · exact he (h4.trans h)

/-- Witness for C1: the invariants hold on the single balance row of a
concrete one-observation series. -/
theorem energy_balance_invariants_witness :
    (defaultBEMS.balance_row (fun _ => 0) 0 obsA).total_consumption
      = (defaultBEMS.balance_row (fun _ => 0) 0 obsA).hvac_consumption
        + (defaultBEMS.balance_row (fun _ => 0) 0 obsA).lighting_consumption
        + (defaultBEMS.balance_row (fun _ => 0) 0 obsA).base_load ∧
    (defaultBEMS.balance_row (fun _ => 0) 0 obsA).net_energy
      = (defaultBEMS.balance_row (fun _ => 0) 0 obsA).total_consumption
        - (defaultBEMS.balance_row (fun _ => 0) 0 obsA).solar_generation ∧
    (defaultBEMS.balance_row (fun _ => 0) 0 obsA).grid_import
      = max (defaultBEMS.balance_row (fun _ => 0) 0 obsA).net_energy 0 ∧
    (defaultBEMS.balance_row (fun _ => 0) 0 obsA).grid_export
      = max (-(defaultBEMS.balance_row (fun _ => 0) 0 obsA).net_energy) 0 ∧
    ¬((defaultBEMS.balance_row (fun _ => 0) 0 obsA).grid_import ≠ 0 ∧
      (defaultBEMS.balance_row (fun _ => 0) 0 obsA).grid_export ≠ 0) :=
  energy_balance_invariants defaultBEMS (fun _ => 0) [obsA]
    (defaultBEMS.balance_row (fun _ => 0) 0 obsA)
    (by simp [BuildingEnergyManagement.calculate_energy_balance,
              BuildingEnergyManagement.balance_from])

/-- C2 (amended): `assess_ecbc_compliance` always multiplies the window
sum by the constant 52 (it assumes the window is one week; the window
length never enters), then `epi = annual / area`, `compliance ↔ epi ≤
limit`, `required savings = max(0, epi - limit) × area`; with the default
configuration, a window summing to 20000 kWh yields annual 1040000 kWh,
EPI 208, non-compliance, and savings 40000 kWh. -/
theorem assess_ecbc_formula (s : SustainabilityAssessment)
    (energy_data : List BalanceRecord) :
    (s.assess_ecbc_compliance energy_data).annual_consumption_kwh
      = (energy_data.map BalanceRecord.total_consumption).sum * 52 ∧
    (s.assess_ecbc_compliance energy_data).epi_kwh_m2_year
      = (s.assess_ecbc_compliance energy_data).annual_consumption_kwh / s.building_area ∧
    ((s.assess_ecbc_compliance energy_data).compliance = true ↔
      (s.assess_ecbc_compliance energy_data).epi_kwh_m2_year ≤ s.ecbc_epi_limit) ∧
    (s.assess_ecbc_compliance energy_data).savings_potential
      = max 0 ((s.assess_ecbc_compliance energy_data).epi_kwh_m2_year - s.ecbc_epi_limit)
        * s.building_area ∧
    (s = defaultSustainability →
      (energy_data.map BalanceRecord.total_consumption).sum = 20000 →
      (s.assess_ecbc_compliance energy_data).annual_consumption_kwh = 1040000 ∧
      (s.assess_ecbc_compliance energy_data).epi_kwh_m2_year = 208 ∧
      (s.assess_ecbc_compliance energy_data).compliance = false ∧
      (s.assess_ecbc_compliance energy_data).savings_potential = 40000) := by
  refine ⟨rfl, rfl, by simp [SustainabilityAssessment.assess_ecbc_compliance], rfl, ?_⟩
  rintro rfl hsum
  simp only [SustainabilityAssessment.assess_ecbc_compliance,
    SustainabilityAssessment.calculate_epi, defaultSustainability, hsum]
  norm_num

/-- Witness for C2 (amended): a 168-record window whose totals sum to
20000 kWh yields exactly the Scenario C numbers. -/
theorem assess_ecbc_formula_witness :
    (defaultSustainability.assess_ecbc_compliance (List.replicate 168 recC)).annual_consumption_kwh
      = 1040000 ∧
    (defaultSustainability.assess_ecbc_compliance (List.replicate 168 recC)).epi_kwh_m2_year
      = 208 ∧
    (defaultSustainability.assess_ecbc_compliance (List.replicate 168 recC)).compliance
      = false ∧
    (defaultSustainability.assess_ecbc_compliance (List.replicate 168 recC)).savings_potential
      = 40000 :=
  (assess_ecbc_formula defaultSustainability (List.replicate 168 recC)).2.2.2.2 rfl
    (by simp only [List.map_replicate, List.sum_replicate, nsmul_eq_mul, recC]; norm_num)

/-- Counterexample for C2: on a window of 1/168 weeks (a single hourly
record with `total_consumption = 1`) the claimed extrapolation `sum × (52
/ w)` is 8736 kWh, but the code returns `sum × 52 = 52` kWh — the code's
factor is the constant 52, not `52 / weeks-in-window`. -/
theorem assess_ecbc_extrapolation_counterexample :
    (defaultSustainability.assess_ecbc_compliance [recOne]).annual_consumption_kwh ≠
      (([recOne].map BalanceRecord.total_consumption).sum)
        * (52 / weeks_in_window [recOne]) := by
  simp only [SustainabilityAssessment.assess_ecbc_compliance, weeks_in_window,
    defaultSustainability, recOne, List.map_cons, List.map_nil, List.sum_cons,
    List.sum_nil, List.length_cons, List.length_nil]
  norm_num

/-- C3 (amended): the assessor never signals an error.  On an empty
balance-record set it returns a vacuous verdict (annual consumption 0,
EPI 0, `compliance = true` whenever the limit is nonnegative) and the
carbon footprint is all zeros; an all-zero record set likewise comes out
compliant; and a length-1 series flows through the Aggregator and both
Assessor operations, producing ordinary values. -/
theorem insufficient_data_behavior (s : SustainabilityAssessment)
    (recs : List BalanceRecord) (bn : ℕ → ℚ) (o : Observation)
    (hzero : ∀ r ∈ recs, r.total_consumption = 0)
    (hlim : 0 ≤ s.ecbc_epi_limit) :
    (s.assess_ecbc_compliance []).annual_consumption_kwh = 0 ∧
    (s.assess_ecbc_compliance []).epi_kwh_m2_year = 0 ∧
    (s.assess_ecbc_compliance []).compliance = true ∧
    (s.calculate_carbon_footprint []).gross_emissions_kg_co2 = 0 ∧
    (s.calculate_carbon_footprint []).carbon_offset_kg_co2 = 0 ∧
    (s.calculate_carbon_footprint []).net_emissions_kg_co2 = 0 ∧
    (s.calculate_carbon_footprint []).annual_net_emissions_tonnes = 0 ∧
    (s.assess_ecbc_compliance recs).compliance = true ∧
    (defaultBEMS.calculate_energy_balance bn [o]).length = 1 ∧
    (s.assess_ecbc_compliance
        (defaultBEMS.calculate_energy_balance bn [o])).annual_consumption_kwh
      = ((defaultBEMS.calculate_energy_balance bn [o]).map
          BalanceRecord.total_consumption).sum * 52 := by
  have hsum : (recs.map BalanceRecord.total_consumption).sum = 0 :=
    List.sum_eq_zero (by
      intro x hx
      rcases List.mem_map.mp hx with ⟨r, hr, rfl⟩
      exact hzero r hr)
  refine ⟨?_, ?_, ?_, ?_, ?_, ?_, ?_, ?_, rfl, rfl⟩
  · simp [SustainabilityAssessment.assess_ecbc_compliance]
  · simp [SustainabilityAssessment.assess_ecbc_compliance,
      SustainabilityAssessment.calculate_epi]
  · simpa [SustainabilityAssessment.assess_ecbc_compliance,
      SustainabilityAssessment.calculate_epi] using hlim
  · simp [SustainabilityAssessment.calculate_carbon_footprint]
  · simp [SustainabilityAssessment.calculate_carbon_footprint]
  · simp [SustainabilityAssessment.calculate_carbon_footprint]
  · simp [SustainabilityAssessment.calculate_carbon_footprint]
  · simpa [SustainabilityAssessment.assess_ecbc_compliance,
      SustainabilityAssessment.calculate_epi, hsum] using hlim

/-- Witness for C3 (amended): the vacuous verdicts and the length-1
behaviour at the default configuration, an all-zero record, and `obsA`. -/
theorem insufficient_data_behavior_witness :
    (defaultSustainability.assess_ecbc_compliance []).annual_consumption_kwh = 0 ∧
    (defaultSustainability.assess_ecbc_compliance []).epi_kwh_m2_year = 0 ∧
    (defaultSustainability.assess_ecbc_compliance []).compliance = true ∧
    (defaultSustainability.calculate_carbon_footprint []).gross_emissions_kg_co2 = 0 ∧
    (defaultSustainability.calculate_carbon_footprint []).carbon_offset_kg_co2 = 0 ∧
    (defaultSustainability.calculate_carbon_footprint []).net_emissions_kg_co2 = 0 ∧
    (defaultSustainability.calculate_carbon_footprint []).annual_net_emissions_tonnes = 0 ∧
    (defaultSustainability.assess_ecbc_compliance [recZero]).compliance = true ∧
    (defaultBEMS.calculate_energy_balance (fun _ => 0) [obsA]).length = 1 ∧
    (defaultSustainability.assess_ecbc_compliance
        (defaultBEMS.calculate_energy_balance (fun _ => 0) [obsA])).annual_consumption_kwh
      = ((defaultBEMS.calculate_energy_balance (fun _ => 0) [obsA]).map
          BalanceRecord.total_consumption).sum * 52 :=
  insufficient_data_behavior defaultSustainability [recZero] (fun _ => 0) obsA
    (by
      intro r hr
      rw [List.mem_singleton] at hr
      subst hr
      rfl)
    (by norm_num [defaultSustainability])

/-- Counterexample for C3: on the empty balance-record set the assessor
does not signal an insufficient-data error — it returns a full (vacuously
compliant) verdict. -/
theorem insufficient_data_counterexample :
    defaultSustainability.assess_ecbc_compliance []
      = { annual_consumption_kwh := 0, epi_kwh_m2_year := 0, ecbc_limit := 200
          compliance := true, savings_potential := 0 } := by
  norm_num [SustainabilityAssessment.assess_ecbc_compliance,
    SustainabilityAssessment.calculate_epi, defaultSustainability,
    EcbcAssessment.mk.injEq]

/-- C4 (amended): the carbon footprint multiplies the grid-import and
grid-export sums by the emission factor, takes `net = gross - offset`,
and annualizes with the constant factor 52 (assuming a one-week window,
as in the compliance assessment) converted to tonnes: `net × 52 / 1000`;
with the default factor 0.82, import 500 kWh and export 100 kWh give
gross 410 kg, offset 82 kg and net 328 kg. -/
theorem carbon_footprint_formula (s : SustainabilityAssessment)
    (energy_data : List BalanceRecord) :
    (s.calculate_carbon_footprint energy_data).gross_emissions_kg_co2
      = (energy_data.map BalanceRecord.grid_import).sum * s.emission_factor ∧
    (s.calculate_carbon_footprint energy_data).carbon_offset_kg_co2
      = (energy_data.map BalanceRecord.grid_export).sum * s.emission_factor ∧
    (s.calculate_carbon_footprint energy_data).net_emissions_kg_co2
      = (s.calculate_carbon_footprint energy_data).gross_emissions_kg_co2
        - (s.calculate_carbon_footprint energy_data).carbon_offset_kg_co2 ∧
    (s.calculate_carbon_footprint energy_data).annual_net_emissions_tonnes
      = (s.calculate_carbon_footprint energy_data).net_emissions_kg_co2 * 52 / 1000 ∧
    (s = defaultSustainability →
      (energy_data.map BalanceRecord.grid_import).sum = 500 →
      (energy_data.map BalanceRecord.grid_export).sum = 100 →
      (s.calculate_carbon_footprint energy_data).gross_emissions_kg_co2 = 410 ∧
      (s.calculate_carbon_footprint energy_data).carbon_offset_kg_co2 = 82 ∧
      (s.calculate_carbon_footprint energy_data).net_emissions_kg_co2 = 328) := by
  refine ⟨rfl, rfl, rfl, rfl, ?_⟩
  rintro rfl himp hexp
  simp only [SustainabilityAssessment.calculate_carbon_footprint,
    defaultSustainability, himp, hexp]
  norm_num

/-- Witness for C4 (amended): Scenario D on a single record with import
500 kWh and export 100 kWh. -/
theorem carbon_footprint_formula_witness :
    (defaultSustainability.calculate_carbon_footprint [recD]).gross_emissions_kg_co2 = 410 ∧
    (defaultSustainability.calculate_carbon_footprint [recD]).carbon_offset_kg_co2 = 82 ∧
    (defaultSustainability.calculate_carbon_footprint [recD]).net_emissions_kg_co2 = 328 :=
  (carbon_footprint_formula defaultSustainability [recD]).2.2.2.2 rfl
    (by simp [recD]) (by simp [recD])

/-- Counterexample for C4: on a window of 1/168 weeks (one record, net
emissions 328 kg) the claimed annualization `net × (52 / w)` is 2865408
kg, but the code reports `net × 52 / 1000 = 17.056` (tonnes) — neither
the reported field nor its kg equivalent matches the claimed factor. -/
theorem carbon_annualization_counterexample :
    (defaultSustainability.calculate_carbon_footprint [recD]).annual_net_emissions_tonnes ≠
      (defaultSustainability.calculate_carbon_footprint [recD]).net_emissions_kg_co2
        * (52 / weeks_in_window [recD]) ∧
    (defaultSustainability.calculate_carbon_footprint [recD]).annual_net_emissions_tonnes
        * 1000 ≠
      (defaultSustainability.calculate_carbon_footprint [recD]).net_emissions_kg_co2
        * (52 / weeks_in_window [recD]) := by
  simp only [SustainabilityAssessment.calculate_carbon_footprint, weeks_in_window,
    defaultSustainability, recD, List.map_cons, List.map_nil, List.sum_cons,
    List.sum_nil, List.length_cons, List.length_nil]
  norm_num

/-- Row `j` of the generated series is `generate_row j`. -/
theorem generate_get (O : NumericOracle) (R : NoiseSource) (now hours : ℤ)
    (j : ℕ) (hj : j < (SensorData.generate_realistic_data O R now hours).length) :
    (SensorData.generate_realistic_data O R now hours).get ⟨j, hj⟩
      = SensorData.generate_row O R now hours j := by
  simp [SensorData.generate_realistic_data]

/-- C5 (amended): a generated series of positive horizon `H` has length
exactly `H`, timestamps `now - H + j` (hence strictly increasing by
exactly one hour), and nonnegative integer occupancy everywhere; ambient
light is clamped at 0 only on the daytime half of each 24-hour cycle
(`j % 24 < 12`) — on the nighttime half it is the raw Gaussian draw,
which the source does not clamp. -/
theorem generate_series_shape (O : NumericOracle) (R : NoiseSource)
    (now hours : ℤ) (hpos : 0 < hours) :
    ((SensorData.generate_realistic_data O R now hours).length : ℤ) = hours ∧
    (∀ (j : ℕ) (hj : j < (SensorData.generate_realistic_data O R now hours).length),
      ((SensorData.generate_realistic_data O R now hours).get ⟨j, hj⟩).timestamp
        = now - hours + j ∧
      (j % 24 < 12 →
        0 ≤ ((SensorData.generate_realistic_data O R now hours).get ⟨j, hj⟩).light_level) ∧
      (¬ j % 24 < 12 →
        ((SensorData.generate_realistic_data O R now hours).get ⟨j, hj⟩).light_level
          = R.night_light j) ∧
      0 ≤ (((SensorData.generate_realistic_data O R now hours).get ⟨j, hj⟩).occupancy : ℤ)) ∧
    (∀ (j : ℕ) (h1 : j < (SensorData.generate_realistic_data O R now hours).length)
        (h2 : j + 1 < (SensorData.generate_realistic_data O R now hours).length),
      ((SensorData.generate_realistic_data O R now hours).get ⟨j + 1, h2⟩).timestamp
        = ((SensorData.generate_realistic_data O R now hours).get ⟨j, h1⟩).timestamp + 1) := by
  refine ⟨?_, ?_, ?_⟩
  · simp [SensorData.generate_realistic_data, Int.toNat_of_nonneg hpos.le]
  · intro j hj
    rw [generate_get]
    refine ⟨rfl, ?_, ?_, Int.natCast_nonneg _⟩
    · intro hday
      simp only [SensorData.generate_row, if_pos hday]
      exact le_max_left 0 _
    · intro hnight
      simp only [SensorData.generate_row, if_neg hnight]
  · intro j h1 h2
    rw [generate_get, generate_get]
    show now - hours + ((j : ℤ) + 1) = now - hours + (j : ℤ) + 1
    ring

/-- Witness for C5 (amended): the shape properties at a concrete oracle,
noise source and horizon 24. -/
theorem generate_series_shape_witness :
    ((SensorData.generate_realistic_data oracle0 noiseW 0 24).length : ℤ) = 24 ∧
    (∀ (j : ℕ) (hj : j < (SensorData.generate_realistic_data oracle0 noiseW 0 24).length),
      ((SensorData.generate_realistic_data oracle0 noiseW 0 24).get ⟨j, hj⟩).timestamp
        = 0 - 24 + j ∧
      (j % 24 < 12 →
        0 ≤ ((SensorData.generate_realistic_data oracle0 noiseW 0 24).get ⟨j, hj⟩).light_level) ∧
      (¬ j % 24 < 12 →
        ((SensorData.generate_realistic_data oracle0 noiseW 0 24).get ⟨j, hj⟩).light_level
          = noiseW.night_light j) ∧
      0 ≤ (((SensorData.generate_realistic_data oracle0 noiseW 0 24).get ⟨j, hj⟩).occupancy : ℤ)) ∧
    (∀ (j : ℕ) (h1 : j < (SensorData.generate_realistic_data oracle0 noiseW 0 24).length)
        (h2 : j + 1 < (SensorData.generate_realistic_data oracle0 noiseW 0 24).length),
      ((SensorData.generate_realistic_data oracle0 noiseW 0 24).get ⟨j + 1, h2⟩).timestamp
        = ((SensorData.generate_realistic_data oracle0 noiseW 0 24).get ⟨j, h1⟩).timestamp + 1) :=
  generate_series_shape oracle0 noiseW 0 24 (by decide)

/-- Counterexample for C5: with a (perfectly possible) nighttime Gaussian
draw of −20 lux, the generated series contains a row with negative
ambient light — the source clamps only the daytime branch. -/
theorem generate_negative_night_light :
    ∃ r ∈ SensorData.generate_realistic_data oracle0 noiseW 0 24, r.light_level < 0 := by
  refine ⟨SensorData.generate_row oracle0 noiseW 0 24 12, ?_, ?_⟩
  · exact List.mem_map.mpr ⟨12, List.mem_range.mpr (by norm_num), rfl⟩
  · norm_num [SensorData.generate_row, noiseW]

/-- C6 (amended): the HVAC load is
`min(formula / efficiency, rated_power)` — it never exceeds the rated
power, and it is nonnegative whenever occupancy is nonnegative and the
external temperature is at least the set-point (in particular at the
default `external_temp = 30`), but the source applies no lower clamp at
0, so other inputs can drive it negative. -/
theorem calculate_load_clamp (h : HVACSystem)
    (current_temp occupancy external_temp : ℚ)
    (heff : 0 < h.efficiency) (hocc : 0 ≤ occupancy)
    (hext : h.target_temp ≤ external_temp) (hpr : 0 ≤ h.power_rating) :
    h.calculate_load current_temp occupancy external_temp
      = min ((|current_temp - h.target_temp| * 2 + occupancy * 0.1
              + (external_temp - h.target_temp) * 0.05) / h.efficiency) h.power_rating ∧
    h.calculate_load current_temp occupancy external_temp ≤ h.power_rating ∧
    0 ≤ h.calculate_load current_temp occupancy external_temp := by
  refine ⟨rfl, min_le_right _ _, ?_⟩
  have hnum : 0 ≤ |current_temp - h.target_temp| * 2 + occupancy * 0.1
      + (external_temp - h.target_temp) * 0.05 := by
    have h1 : 0 ≤ |current_temp - h.target_temp| * 2 :=
      mul_nonneg (abs_nonneg _) (by norm_num)
    have h2 : 0 ≤ occupancy * (0.1 : ℚ) := mul_nonneg hocc (by norm_num)
    have h3 : 0 ≤ (external_temp - h.target_temp) * (0.05 : ℚ) :=
      mul_nonneg (sub_nonneg.mpr hext) (by norm_num)
    linarith
  have hmin : 0 ≤ min ((|current_temp - h.target_temp| * 2 + occupancy * 0.1
      + (external_temp - h.target_temp) * 0.05) / h.efficiency) h.power_rating :=
    le_min (div_nonneg hnum heff.le) hpr
  exact hmin

/-- Witness for C6 (amended): the clamp facts at the default HVAC
configuration, 25 °C, 10 occupants and external temperature 30 °C. -/
theorem calculate_load_clamp_witness :
    defaultHVACSystem.calculate_load 25 10 30
      = min ((|25 - defaultHVACSystem.target_temp| * 2 + 10 * 0.1
              + (30 - defaultHVACSystem.target_temp) * 0.05)
             / defaultHVACSystem.efficiency) defaultHVACSystem.power_rating ∧
    defaultHVACSystem.calculate_load 25 10 30 ≤ defaultHVACSystem.power_rating ∧
    0 ≤ defaultHVACSystem.calculate_load 25 10 30 :=
  calculate_load_clamp defaultHVACSystem 25 10 30
    (by norm_num [defaultHVACSystem]) (by norm_num)
    (by norm_num [defaultHVACSystem]) (by norm_num [defaultHVACSystem])

/-- Counterexample for C6: with external temperature 0 °C (well below the
24 °C set-point), the load at the set-point temperature with no occupants
is negative — the claimed clamp to `[0, rated_power]` does not hold. -/
theorem calculate_load_negative_counterexample :
    defaultHVACSystem.calculate_load 24 0 0 < 0 := by
  norm_num [HVACSystem.calculate_load, defaultHVACSystem, min_def]

/-- C7: the lighting load is 0 when occupancy is 0 (regardless of ambient
light), 0 when ambient light is at or above the daylight threshold, and
otherwise `fixtures × power_per_fixture × (1 - ambient/threshold)`. -/
theorem lighting_need_cases (L : LightingSystem) (ambient_light : ℚ)
    (occupancy : ℕ) (hal : 0 ≤ ambient_light) :
    (occupancy = 0 → L.calculate_lighting_need ambient_light occupancy = 0) ∧
    (L.daylight_threshold ≤ ambient_light →
      L.calculate_lighting_need ambient_light occupancy = 0) ∧
    (occupancy ≠ 0 → ambient_light < L.daylight_threshold →
      L.calculate_lighting_need ambient_light occupancy
        = L.fixtures * L.power_per_fixture * (1 - ambient_light / L.daylight_threshold)) := by
  unfold LightingSystem.calculate_lighting_need
  refine ⟨?_, ?_, ?_⟩
  · intro h0
    simp [h0]
  · intro hth
    by_cases h0 : occupancy = 0
    · simp [h0]
    · simp [h0, not_lt.mpr hth]
  · intro h0 hlt
    simp [h0, hlt]

/-- Witness for C7: the three cases at the default lighting system with
ambient light 100 lux and 5 occupants. -/
theorem lighting_need_cases_witness :
    ((5 : ℕ) = 0 → defaultLightingSystem.calculate_lighting_need 100 5 = 0) ∧
    (defaultLightingSystem.daylight_threshold ≤ 100 →
      defaultLightingSystem.calculate_lighting_need 100 5 = 0) ∧
    ((5 : ℕ) ≠ 0 → (100 : ℚ) < defaultLightingSystem.daylight_threshold →
      defaultLightingSystem.calculate_lighting_need 100 5
        = defaultLightingSystem.fixtures * defaultLightingSystem.power_per_fixture
          * (1 - 100 / defaultLightingSystem.daylight_threshold)) :=
  lighting_need_cases defaultLightingSystem 100 5 (by norm_num)

/-- C8 (amended): a horizon `≤ 0` makes every Python `range` in the
synthesizer empty, so it returns an empty series without signalling any
error; a positive horizon `H` returns a series of length exactly `H`. -/
theorem generate_horizon_behavior (O : NumericOracle) (R : NoiseSource)
    (now hours : ℤ) :
    (hours ≤ 0 → SensorData.generate_realistic_data O R now hours = []) ∧
    (0 < hours →
      ((SensorData.generate_realistic_data O R now hours).length : ℤ) = hours) := by
  constructor
  · intro hle
    simp [SensorData.generate_realistic_data, Int.toNat_of_nonpos hle]
  · intro hpos
    simp [SensorData.generate_realistic_data, Int.toNat_of_nonneg hpos.le]

/-- Witness for C8 (amended): horizon −5 yields the empty series, horizon
5 yields length 5. -/
theorem generate_horizon_behavior_witness :
    SensorData.generate_realistic_data oracle0 noiseW 0 (-5) = [] ∧
    ((SensorData.generate_realistic_data oracle0 noiseW 0 5).length : ℤ) = 5 :=
  ⟨(generate_horizon_behavior oracle0 noiseW 0 (-5)).1 (by decide),
   (generate_horizon_behavior oracle0 noiseW 0 5).2 (by decide)⟩

/-- Counterexample for C8: at horizon −3 the synthesizer does not signal
an invalid-argument error — it returns normally, with an empty series. -/
theorem generate_nonpositive_horizon_counterexample :
    SensorData.generate_realistic_data oracle0 noiseW 0 (-3) = [] := by
  rfl

/-- C9 (amended): each optimization row recommends `set_point + 2` when
the row's occupancy is 0 and the nominal set-point otherwise, but pairs
it with the load computed at the NOMINAL set-point (the source calls
`self.calculate_load` with unchanged settings); and the energy balance
likewise always computes HVAC load from the nominal configuration — the
recommendations never enter it. -/
theorem optimize_settings_nominal (h : HVACSystem)
    (b : BuildingEnergyManagement) (bn : ℕ → ℚ)
    (forecast_data sensor_data : List Observation) :
    (∀ r ∈ h.optimize_settings forecast_data,
      ∃ row ∈ forecast_data,
        r.timestamp = row.timestamp ∧
        r.recommended_temp
          = (if row.occupancy = 0 then h.target_temp + 2 else h.target_temp) ∧
        r.predicted_load = h.calculate_load row.temperature (row.occupancy : ℚ) 30) ∧
    (∀ r ∈ b.calculate_energy_balance bn sensor_data,
      ∃ row ∈ sensor_data,
        r.hvac_consumption
          = b.hvac.calculate_load row.temperature (row.occupancy : ℚ) 30) := by
  constructor
  · intro r hr
    rcases List.mem_map.mp hr with ⟨row, hrow, rfl⟩
    exact ⟨row, hrow, rfl, rfl, rfl⟩
  · intro r hr
    rcases balance_from_mem b bn 0 sensor_data r hr with ⟨k, row, hrow, rfl⟩
    exact ⟨row, hrow, rfl⟩

/-- Witness for C9 (amended): on the singleton unoccupied forecast
`[obsB]` and the singleton series `[obsA]`. -/
theorem optimize_settings_nominal_witness :
    (∃ row ∈ [obsB],
      ({ timestamp := obsB.timestamp
         recommended_temp :=
           if obsB.occupancy = 0 then defaultHVACSystem.target_temp + 2
           else defaultHVACSystem.target_temp
         predicted_load :=
           defaultHVACSystem.calculate_load obsB.temperature (obsB.occupancy : ℚ) 30 } :
        OptimizeRecommendation).timestamp = row.timestamp ∧
      ({ timestamp := obsB.timestamp
         recommended_temp :=
           if obsB.occupancy = 0 then defaultHVACSystem.target_temp + 2
           else defaultHVACSystem.target_temp
         predicted_load :=
           defaultHVACSystem.calculate_load obsB.temperature (obsB.occupancy : ℚ) 30 } :
        OptimizeRecommendation).recommended_temp
        = (if row.occupancy = 0 then defaultHVACSystem.target_temp + 2
           else defaultHVACSystem.target_temp) ∧
      ({ timestamp := obsB.timestamp
         recommended_temp :=
           if obsB.occupancy = 0 then defaultHVACSystem.target_temp + 2
           else defaultHVACSystem.target_temp
         predicted_load :=
           defaultHVACSystem.calculate_load obsB.temperature (obsB.occupancy : ℚ) 30 } :
        OptimizeRecommendation).predicted_load
        = defaultHVACSystem.calculate_load row.temperature (row.occupancy : ℚ) 30) ∧
    (∃ row ∈ [obsA],
      (defaultBEMS.balance_row (fun _ => 0) 0 obsA).hvac_consumption
        = defaultBEMS.hvac.calculate_load row.temperature (row.occupancy : ℚ) 30) :=
  ⟨(optimize_settings_nominal defaultHVACSystem defaultBEMS (fun _ => 0) [obsB] [obsA]).1
      _ (List.mem_map.mpr ⟨obsB, List.mem_singleton.mpr rfl, rfl⟩),
   (optimize_settings_nominal defaultHVACSystem defaultBEMS (fun _ => 0) [obsB] [obsA]).2
      _ (by simp [BuildingEnergyManagement.calculate_energy_balance,
                  BuildingEnergyManagement.balance_from])⟩

/-- Counterexample for C9: for the unoccupied row `obsB` at the set-point
temperature, the recommendation is 26 °C, but the paired load is the one
the NOMINAL 24 °C set-point implies (6/17 kW), not the load the
recommended 26 °C set-point implies (84/17 kW). -/
theorem optimize_predicted_load_counterexample :
    ∃ r ∈ defaultHVACSystem.optimize_settings [obsB],
      r.predicted_load ≠
        ({ defaultHVACSystem with target_temp := r.recommended_temp } :
          HVACSystem).calculate_load obsB.temperature (obsB.occupancy : ℚ) 30 := by
  refine ⟨_, List.mem_map.mpr ⟨obsB, List.mem_singleton.mpr rfl, rfl⟩, ?_⟩
  simp only [HVACSystem.calculate_load, defaultHVACSystem, obsB]
  norm_num [min_def, abs_of_nonpos, abs_of_nonneg]

/-- The balance of one row reads only the timestamp, temperature, light
level and occupancy of the observation — never its humidity. -/
theorem balance_row_humidity_congr (b : BuildingEnergyManagement)
    (bn : ℕ → ℚ) (j : ℕ) {x y : Observation} (hxy : sameExceptHumidity x y) :
    b.balance_row bn j x = b.balance_row bn j y := by
  obtain ⟨h1, h2, h3, h4, h5⟩ := hxy
  simp only [BuildingEnergyManagement.balance_row, h1, h2, h3, h5]

/-- Congruence of the whole aggregation under humidity changes. -/
theorem balance_from_humidity_congr (b : BuildingEnergyManagement)
    (bn : ℕ → ℚ) {xs ys : List Observation}
    (hxy : List.Forall₂ sameExceptHumidity xs ys) :
    ∀ j : ℕ, b.balance_from bn j xs = b.balance_from bn j ys := by
  induction hxy with
  | nil => intro j; rfl
  | cons hxy htail ih =>
      intro j
      simp only [BuildingEnergyManagement.balance_from]
      rw [balance_row_humidity_congr b bn j hxy, ih (j + 1)]

/-- C10: the energy balance and both assessments are invariant under any
change to the humidity column alone — humidity never influences any load,
generation, grid-exchange or assessment output. -/
theorem humidity_noninterference (b : BuildingEnergyManagement)
    (bn : ℕ → ℚ) (s : SustainabilityAssessment) (xs ys : List Observation)
    (hxy : List.Forall₂ sameExceptHumidity xs ys) :
    b.calculate_energy_balance bn xs = b.calculate_energy_balance bn ys ∧
    s.assess_ecbc_compliance (b.calculate_energy_balance bn xs)
      = s.assess_ecbc_compliance (b.calculate_energy_balance bn ys) ∧
    s.calculate_carbon_footprint (b.calculate_energy_balance bn xs)
      = s.calculate_carbon_footprint (b.calculate_energy_balance bn ys) := by
  have h : b.calculate_energy_balance bn xs = b.calculate_energy_balance bn ys :=
    balance_from_humidity_congr b bn hxy 0
  exact ⟨h, by rw [h], by rw [h]⟩

/-- Witness for C10: two concrete one-row series differing only in
humidity (50 % vs 90 %) yield identical balances and assessments. -/
theorem humidity_noninterference_witness :
    defaultBEMS.calculate_energy_balance (fun _ => 0) [obsA]
      = defaultBEMS.calculate_energy_balance (fun _ => 0) [obsAHum] ∧
    defaultSustainability.assess_ecbc_compliance
        (defaultBEMS.calculate_energy_balance (fun _ => 0) [obsA])
      = defaultSustainability.assess_ecbc_compliance
        (defaultBEMS.calculate_energy_balance (fun _ => 0) [obsAHum]) ∧
    defaultSustainability.calculate_carbon_footprint
        (defaultBEMS.calculate_energy_balance (fun _ => 0) [obsA])
      = defaultSustainability.calculate_carbon_footprint
        (defaultBEMS.calculate_energy_balance (fun _ => 0) [obsAHum]) :=
  humidity_noninterference defaultBEMS (fun _ => 0) defaultSustainability
    [obsA] [obsAHum]
    (List.Forall₂.cons ⟨rfl, rfl, rfl, rfl, rfl⟩ List.Forall₂.nil)

end DigitalTwin
